import Mathlib

/-!
Shallow embedding of the Vendor CRM API (src/main.py, src/schemas.py).

JSON documents are modelled as association lists of string keys and `JValue`
values (Python dicts preserve insertion order, so an ordered list is faithful).
The MongoDB store reached through the missing `database` module is modelled as
explicit per-collection lists of documents; the handlers of src/main.py become
pure functions over that state, returning `Except ApiError` results in place of
raised `HTTPException`s.
-/

namespace VendorCRM

/-- A JSON-ish value stored in a document or arriving in a request payload.
`oid` models a BSON ObjectId value (carrying its 24-character hex form). -/
inductive JValue where
  | null
  | str (s : String)
  | num (q : Rat)
  | oid (h : String)
deriving DecidableEq, Repr

/-- A document in a collection: ordered key/value pairs, as a Python dict. -/
abbrev Document := List (String × JValue)

/-- An (already JSON-parsed) request body. -/
abbrev Payload := List (String × JValue)

/-- Python dict lookup: the value at the first occurrence of the key. -/
def lookupKey (p : Payload) (k : String) : Option JValue :=
  (p.find? (fun kv => kv.1 == k)).map (fun kv => kv.2)

/-- Python dict `pop`/`del`: remove the key. -/
def eraseKey (d : Document) (k : String) : Document :=
  d.filter (fun kv => !(kv.1 == k))

/-- Python dict assignment `d[k] = v`: replace in place if present, else append. -/
def setKey (d : Document) (k : String) (v : JValue) : Document :=
  if (lookupKey d k).isSome then
    d.map (fun kv => if kv.1 == k then (k, v) else kv)
  else
    d ++ [(k, v)]

/-- Python `str()` of a document value (only ObjectId and str occur in practice;
`str` of a BSON ObjectId is its 24-character hex string). -/
def strOfValue : JValue → String
  | .null => "None"
  | .str s => s
  | .num q => toString q
  | .oid h => h

/-- Errors raised by handlers. `validationError f` stands for a pydantic
validation failure naming offending field `f`; `httpError` is FastAPI's
`HTTPException(status_code, detail)`. -/
inductive ApiError where
  | validationError (field : String)
  | httpError (status : Nat) (detail : String)
deriving DecidableEq, Repr

/-- Modelled from the spec: the store's identifier grammar (the `bson.ObjectId`
constructor reached from `to_object_id`): "an opaque string uniquely generated
per document; parsing an identifier that does not conform to the store's
identifier grammar must fail distinctly from not found". A string parses as an
ObjectId exactly when it is 24 hexadecimal characters. -/
def isValidObjectId (s : String) : Bool :=
  s.length == 24 && s.data.all (fun c => c.isDigit || ('a' ≤ c && c ≤ 'f') || ('A' ≤ c && c ≤ 'F'))

/-- src/main.py `to_object_id`: parse an id string, raising
`HTTPException(400, "Invalid id format")` when `ObjectId(id_str)` fails. -/
def to_object_id (s : String) : Except ApiError String :=
  if isValidObjectId s then .ok s else .error (.httpError 400 "Invalid id format")

/-- src/main.py `serialize`: falsy (empty) documents pass through; otherwise
`doc["id"] = str(doc.pop("_id"))`. A missing `"_id"` key makes `pop` raise
(`none` result). -/
def serialize (doc : Document) : Option Document :=
  if doc.isEmpty then some doc
  else
    match lookupKey doc "_id" with
    | none => none
    | some v => some (setKey (eraseKey doc "_id") "id" (JValue.str (strOfValue v)))

/-! ## Schemas (src/schemas.py) -/

/-- Validated `Vendor` pydantic model. -/
structure Vendor where
  name : String
  email : String
  business_name : String
  phone : Option String
  category : Option String
  website : Option String
  status : String
deriving DecidableEq, Repr

/-- Validated `Contact` pydantic model. -/
structure Contact where
  vendor_id : String
  name : String
  email : Option String
  phone : Option String
  role : Option String
deriving DecidableEq, Repr

/-- Validated `Deal` pydantic model. `value` is a non-negative number; it is
modelled as a rational, which agrees with float comparison at the inputs the
API receives. -/
structure Deal where
  vendor_id : String
  title : String
  value : Rat
  stage : String
  notes : Option String
deriving DecidableEq, Repr

/-- Validated `Note` pydantic model. -/
structure Note where
  vendor_id : String
  content : String
  author : Option String
deriving DecidableEq, Repr

/-- Modelled from the spec: pydantic `EmailStr` (external library) — "Email-shaped
fields must match a standard address pattern". Modelled as one at-sign splitting a
nonempty local part from a domain made of at least two nonempty dot-separated
labels. -/
def isEmailShape (s : String) : Bool :=
  let cs := s.data
  let lpart := cs.takeWhile (fun c => c != '@')
  match cs.dropWhile (fun c => c != '@') with
  | '@' :: domain =>
      !lpart.isEmpty && !domain.isEmpty && domain.count '@' == 0 &&
        domain.count '.' ≥ 1 && domain.head? != some '.' && domain.getLast? != some '.'
  | _ => false

/-- Required string field: present with a string value, else a validation error. -/
def reqStr (p : Payload) (k : String) : Except ApiError String :=
  match lookupKey p k with
  | some (.str s) => .ok s
  | _ => .error (.validationError k)

/-- Optional string field with default `None`: absent or null gives `none`. -/
def optStr (p : Payload) (k : String) : Except ApiError (Option String) :=
  match lookupKey p k with
  | none => .ok none
  | some .null => .ok none
  | some (.str s) => .ok (some s)
  | some _ => .error (.validationError k)

/-- Required `EmailStr` field. -/
def reqEmail (p : Payload) (k : String) : Except ApiError String :=
  match lookupKey p k with
  | some (.str s) => if isEmailShape s then .ok s else .error (.validationError k)
  | _ => .error (.validationError k)

/-- Optional `EmailStr` field with default `None`. -/
def optEmail (p : Payload) (k : String) : Except ApiError (Option String) :=
  match lookupKey p k with
  | none => .ok none
  | some .null => .ok none
  | some (.str s) => if isEmailShape s then .ok (some s) else .error (.validationError k)
  | some _ => .error (.validationError k)

/-- `Literal[...]` field with a default: absent gives the default; otherwise the
value must be one of the declared literals. -/
def litField (p : Payload) (k : String) (allowed : List String) (dflt : String) :
    Except ApiError String :=
  match lookupKey p k with
  | none => .ok dflt
  | some (.str s) => if s ∈ allowed then .ok s else .error (.validationError k)
  | some _ => .error (.validationError k)

/-- Required numeric field with `ge=0` (Deal.value). -/
def reqNumGe0 (p : Payload) (k : String) : Except ApiError Rat :=
  match lookupKey p k with
  | some (.num q) => if q < 0 then .error (.validationError k) else .ok q
  | _ => .error (.validationError k)

/-- The declared `Vendor.status` literals. -/
def vendorStatuses : List String := ["active", "pending", "suspended"]

/-- The declared `Deal.stage` literals. -/
def dealStages : List String := ["lead", "qualified", "proposal", "won", "lost"]

/-- Validation of a `Vendor` payload, from the pydantic model in src/schemas.py.
Pydantic reads only the declared fields (extras are ignored by default). -/
def validateVendor (p : Payload) : Except ApiError Vendor := do
  let name ← reqStr p "name"
  let email ← reqEmail p "email"
  let business_name ← reqStr p "business_name"
  let phone ← optStr p "phone"
  let category ← optStr p "category"
  let website ← optStr p "website"
  let status ← litField p "status" vendorStatuses "active"
  pure { name, email, business_name, phone, category, website, status }

/-- Validation of a `Contact` payload, from the pydantic model in src/schemas.py. -/
def validateContact (p : Payload) : Except ApiError Contact := do
  let vendor_id ← reqStr p "vendor_id"
  let name ← reqStr p "name"
  let email ← optEmail p "email"
  let phone ← optStr p "phone"
  let role ← optStr p "role"
  pure { vendor_id, name, email, phone, role }

/-- Validation of a `Deal` payload, from the pydantic model in src/schemas.py. -/
def validateDeal (p : Payload) : Except ApiError Deal := do
  let vendor_id ← reqStr p "vendor_id"
  let title ← reqStr p "title"
  let value ← reqNumGe0 p "value"
  let stage ← litField p "stage" dealStages "lead"
  let notes ← optStr p "notes"
  pure { vendor_id, title, value, stage, notes }

/-- Validation of a `Note` payload, from the pydantic model in src/schemas.py. -/
def validateNote (p : Payload) : Except ApiError Note := do
  let vendor_id ← reqStr p "vendor_id"
  let content ← reqStr p "content"
  let author ← optStr p "author"
  pure { vendor_id, content, author }

/-- The declared field names of `Vendor`. -/
def vendorFields : List String :=
  ["name", "email", "business_name", "phone", "category", "website", "status"]

/-- The declared field names of `Contact`. -/
def contactFields : List String := ["vendor_id", "name", "email", "phone", "role"]

/-- The declared field names of `Deal`. -/
def dealFields : List String := ["vendor_id", "title", "value", "stage", "notes"]

/-- The declared field names of `Note`. -/
def noteFields : List String := ["vendor_id", "content", "author"]

/-- Optional string as a document value (`None` serializes to null). -/
def optJ : Option String → JValue
  | none => .null
  | some s => .str s

/-- `model_dump` of a validated Vendor: exactly the declared fields. -/
def vendorToDoc (v : Vendor) : Document :=
  [("name", .str v.name), ("email", .str v.email), ("business_name", .str v.business_name),
   ("phone", optJ v.phone), ("category", optJ v.category), ("website", optJ v.website),
   ("status", .str v.status)]

/-- `model_dump` of a validated Contact: exactly the declared fields. -/
def contactToDoc (c : Contact) : Document :=
  [("vendor_id", .str c.vendor_id), ("name", .str c.name), ("email", optJ c.email),
   ("phone", optJ c.phone), ("role", optJ c.role)]

/-- `model_dump` of a validated Deal: exactly the declared fields. -/
def dealToDoc (d : Deal) : Document :=
  [("vendor_id", .str d.vendor_id), ("title", .str d.title), ("value", .num d.value),
   ("stage", .str d.stage), ("notes", optJ d.notes)]

/-- `model_dump` of a validated Note: exactly the declared fields. -/
def noteToDoc (n : Note) : Document :=
  [("vendor_id", .str n.vendor_id), ("content", .str n.content), ("author", optJ n.author)]

/-! ## Store adapter (the `database` module, absent from src/) -/

/-- The document store: one list of documents per collection, in store order,
plus a counter from which fresh identifiers are generated. -/
structure Store where
  vendor : List Document
  contact : List Document
  deal : List Document
  note : List Document
  nextId : Nat
deriving DecidableEq, Repr

/-- A fresh 24-hex-character ObjectId generated from the store's counter. -/
def genOid (n : Nat) : String :=
  let ds := Nat.toDigits 16 n
  String.mk (List.replicate (24 - ds.length) '0' ++ ds)

/-- Append a document to the named collection. -/
def addDoc (st : Store) (coll : String) (d : Document) : Store :=
  if coll == "vendor" then { st with vendor := st.vendor ++ [d] }
  else if coll == "contact" then { st with contact := st.contact ++ [d] }
  else if coll == "deal" then { st with deal := st.deal ++ [d] }
  else if coll == "note" then { st with note := st.note ++ [d] }
  else st

/-- Modelled from the spec: `database.create_document` (the Store Adapter's
`insert(collectionName, document) -> identifier`, absent from src/): "persists a
new document, returns a newly generated unique identifier as an opaque string". -/
def create_document (st : Store) (coll : String) (fields : Document) : Store × String :=
  let oid := genOid st.nextId
  let doc := fields ++ [("_id", JValue.oid oid)]
  (addDoc { st with nextId := st.nextId + 1 } coll doc, oid)

/-- Modelled from the spec: the Store Adapter's
`findOne(collectionName, identifier) -> document or absent` (reached in src as
`db["vendor"].find_one({"_id": oid})`): the first document whose `_id` equals
the identifier, if any. -/
def find_one (docs : List Document) (oid : String) : Option Document :=
  docs.find? (fun d => decide (lookupKey d "_id" = some (.oid oid)))

/-- One condition of a MongoDB filter built by the list handlers: an exact-match
condition, or the case-insensitive `$regex` condition on a field. -/
inductive Cond where
  | eq (field : String) (val : JValue)
  | regexI (field : String) (pat : String)
deriving DecidableEq, Repr

/-- A filter: the conjunction of its conditions (an empty filter matches all). -/
abbrev Filt := List Cond

/-- Case-insensitive containment of `pat` in `s` (a chars-as-list check). -/
def leadsWith : List Char → List Char → Bool
  | [], _ => true
  | _ :: _, [] => false
  | a :: as, b :: bs => a == b && leadsWith as bs

/-- Does `pat` occur contiguously in the second list? -/
def occursIn (pat : List Char) : List Char → Bool
  | [] => leadsWith pat []
  | c :: cs => leadsWith pat (c :: cs) || occursIn pat cs

/-- Case-insensitive substring test. -/
def containsCI (pat s : String) : Bool :=
  occursIn (pat.data.map Char.toLower) (s.data.map Char.toLower)

/-- Modelled from the spec: how the store matches one filter condition
(`find`'s filter semantics live in the absent `database` module and the store
engine). Exact-match compares the stored value; the case-insensitive regex
condition the vendor handler builds is, per the spec, a "case-insensitive
substring match for vendor business_name search". -/
def matchesCond (d : Document) : Cond → Bool
  | .eq f v => decide (lookupKey d f = some v)
  | .regexI f pat =>
      match lookupKey d f with
      | some (.str s) => containsCI pat s
      | _ => false

/-- A document matches a filter when it matches every condition. -/
def matchesFilt (d : Document) (filt : Filt) : Bool :=
  filt.all (matchesCond d)

/-- Modelled from the spec: `database.get_documents` (the Store Adapter's
`find(collectionName, filter, limit)`, absent from src/): "returns up to limit
matching documents, in store-native order". -/
def get_documents (docs : List Document) (filt : Filt) (limit : Nat) : List Document :=
  (docs.filter (fun d => matchesFilt d filt)).take limit

/-! ## Request handlers (src/main.py) -/

/-- Python truthiness of an `Optional[str]` query parameter: `None` and the
empty string are falsy. -/
def truthy : Option String → Bool
  | none => false
  | some s => !s.isEmpty

/-- src/main.py `create_vendor`: no existence check, insert and return the id. -/
def create_vendor (st : Store) (v : Vendor) : Store × Except ApiError String :=
  let r := create_document st "vendor" (vendorToDoc v)
  (r.1, .ok r.2)

/-- The filter `list_vendors` builds: a case-insensitive `$regex` on
`business_name` when `q` is truthy, else empty. -/
def vendorFilt (q : Option String) : Filt :=
  if truthy q then [Cond.regexI "business_name" (q.getD "")] else []

/-- src/main.py `list_vendors`, before serialization: the selected documents. -/
def list_vendors_docs (st : Store) (q : Option String) (limit : Nat) : List Document :=
  get_documents st.vendor (vendorFilt q) limit

/-- src/main.py `list_vendors`: serialize every selected document
(`none` models a serialization exception, impossible for store-created docs). -/
def list_vendors (st : Store) (q : Option String) (limit : Nat) : Option (List Document) :=
  (list_vendors_docs st q limit).mapM serialize

/-- src/main.py `create_contact`: parse the vendor id (400 on bad format), check
the vendor exists (404 otherwise), then insert. -/
def create_contact (st : Store) (c : Contact) : Store × Except ApiError String :=
  match to_object_id c.vendor_id with
  | .error e => (st, .error e)
  | .ok oid =>
      match find_one st.vendor oid with
      | none => (st, .error (.httpError 404 "Vendor not found"))
      | some _ =>
          let r := create_document st "contact" (contactToDoc c)
          (r.1, .ok r.2)

/-- The filter `list_contacts` builds: exact match on `vendor_id` when truthy. -/
def contactFilt (vendor_id : Option String) : Filt :=
  if truthy vendor_id then [Cond.eq "vendor_id" (.str (vendor_id.getD ""))] else []

/-- src/main.py `list_contacts`, before serialization. -/
def list_contacts_docs (st : Store) (vendor_id : Option String) (limit : Nat) : List Document :=
  get_documents st.contact (contactFilt vendor_id) limit

/-- src/main.py `list_contacts`. -/
def list_contacts (st : Store) (vendor_id : Option String) (limit : Nat) :
    Option (List Document) :=
  (list_contacts_docs st vendor_id limit).mapM serialize

/-- src/main.py `create_deal`: same shape as `create_contact`. -/
def create_deal (st : Store) (d : Deal) : Store × Except ApiError String :=
  match to_object_id d.vendor_id with
  | .error e => (st, .error e)
  | .ok oid =>
      match find_one st.vendor oid with
      | none => (st, .error (.httpError 404 "Vendor not found"))
      | some _ =>
          let r := create_document st "deal" (dealToDoc d)
          (r.1, .ok r.2)

/-- The filter `list_deals` builds: exact matches on `vendor_id` and `stage`
for whichever parameters are truthy. -/
def dealFilt (vendor_id stage : Option String) : Filt :=
  (if truthy vendor_id then [Cond.eq "vendor_id" (.str (vendor_id.getD ""))] else [])
    ++ (if truthy stage then [Cond.eq "stage" (.str (stage.getD ""))] else [])

/-- src/main.py `list_deals`, before serialization. -/
def list_deals_docs (st : Store) (vendor_id stage : Option String) (limit : Nat) :
    List Document :=
  get_documents st.deal (dealFilt vendor_id stage) limit

/-- src/main.py `list_deals`. -/
def list_deals (st : Store) (vendor_id stage : Option String) (limit : Nat) :
    Option (List Document) :=
  (list_deals_docs st vendor_id stage limit).mapM serialize

/-- src/main.py `create_note`: same shape as `create_contact`. -/
def create_note (st : Store) (n : Note) : Store × Except ApiError String :=
  match to_object_id n.vendor_id with
  | .error e => (st, .error e)
  | .ok oid =>
      match find_one st.vendor oid with
      | none => (st, .error (.httpError 404 "Vendor not found"))
      | some _ =>
          let r := create_document st "note" (noteToDoc n)
          (r.1, .ok r.2)

/-- src/main.py `list_notes` (`vendor_id` is a required parameter). -/
def list_notes (st : Store) (vendor_id : String) (limit : Nat) : Option (List Document) :=
  (get_documents st.note [Cond.eq "vendor_id" (.str vendor_id)] limit).mapM serialize

/-! ## Schema introspection (GET /schema) -/

/-- The declared shape of one schema field, as exposed by `model_json_schema`:
a type name, whether the field is required, its default, and the literal set
for enum fields. -/
structure FieldSpec where
  fieldType : String
  required : Bool
  dflt : Option JValue
  enumVals : List String
deriving DecidableEq, Repr

/-- A schema description: field name to field spec, in declaration order. -/
abbrev EntitySchema := List (String × FieldSpec)

/-- Modelled from the spec: `Vendor.model_json_schema()` — the declared shape
(field names, types, constraints, defaults) of the Vendor entity. -/
def vendorSchema : EntitySchema :=
  [("name", ⟨"string", true, none, []⟩),
   ("email", ⟨"email", true, none, []⟩),
   ("business_name", ⟨"string", true, none, []⟩),
   ("phone", ⟨"string", false, some .null, []⟩),
   ("category", ⟨"string", false, some .null, []⟩),
   ("website", ⟨"string", false, some .null, []⟩),
   ("status", ⟨"string", false, some (.str "active"), vendorStatuses⟩)]

/-- Modelled from the spec: `Contact.model_json_schema()`. -/
def contactSchema : EntitySchema :=
  [("vendor_id", ⟨"string", true, none, []⟩),
   ("name", ⟨"string", true, none, []⟩),
   ("email", ⟨"email", false, some .null, []⟩),
   ("phone", ⟨"string", false, some .null, []⟩),
   ("role", ⟨"string", false, some .null, []⟩)]

/-- Modelled from the spec: `Deal.model_json_schema()`. -/
def dealSchema : EntitySchema :=
  [("vendor_id", ⟨"string", true, none, []⟩),
   ("title", ⟨"string", true, none, []⟩),
   ("value", ⟨"number", true, none, []⟩),
   ("stage", ⟨"string", false, some (.str "lead"), dealStages⟩),
   ("notes", ⟨"string", false, some .null, []⟩)]

/-- Modelled from the spec: `Note.model_json_schema()`. -/
def noteSchema : EntitySchema :=
  [("vendor_id", ⟨"string", true, none, []⟩),
   ("content", ⟨"string", true, none, []⟩),
   ("author", ⟨"string", false, some .null, []⟩)]

/-- src/main.py `get_schema`: a dict literal with exactly the four entity
schemas. The handler takes the ambient store state as an argument to make its
store-independence statable; its body never touches it. -/
def get_schema (_st : Store) : List (String × EntitySchema) :=
  [("vendor", vendorSchema), ("contact", contactSchema),
   ("deal", dealSchema), ("note", noteSchema)]

/-! ## Association-list lemmas -/

/-- Unfolding lookup over a cons cell. -/
theorem lookupKey_cons (kv : String × JValue) (p : Payload) (f : String) :
    lookupKey (kv :: p) f = if kv.1 == f then some kv.2 else lookupKey p f := by
  by_cases h : kv.1 == f <;> simp [lookupKey, List.find?_cons, h]

/-- Appending an entry under a different key does not change a lookup. -/
theorem lookupKey_append_ne (p : Payload) (k f : String) (jv : JValue) (h : f ≠ k) :
    lookupKey (p ++ [(k, jv)]) f = lookupKey p f := by
  induction p with
  | nil =>
      rw [List.nil_append, lookupKey_cons]
      simp [lookupKey, Ne.symm h]
  | cons hd tl ih =>
      rw [List.cons_append, lookupKey_cons, lookupKey_cons, ih]

/-- Appending an entry under an absent key makes the lookup find it. -/
theorem lookupKey_append_self (p : Payload) (k : String) (jv : JValue)
    (h : lookupKey p k = none) : lookupKey (p ++ [(k, jv)]) k = some jv := by
  induction p with
  | nil => simp [lookupKey]
  | cons hd tl ih =>
      rw [lookupKey_cons] at h
      rw [List.cons_append, lookupKey_cons]
      by_cases hk : hd.1 == k
      · simp [hk] at h
      · simp only [hk, if_false] at h ⊢
        exact ih h

/-- Erasing a different key does not change a lookup. -/
theorem lookupKey_erase_ne (d : Document) (f k : String) (h : f ≠ k) :
    lookupKey (eraseKey d k) f = lookupKey d f := by
  induction d with
  | nil => rfl
  | cons hd tl ih =>
      by_cases hk : hd.1 == k
      · have hf : (hd.1 == f) = false := by
          have : hd.1 = k := by simpa using hk
          simp [this, Ne.symm h]
        simp [eraseKey, List.filter_cons, hk, lookupKey_cons, hf] at ih ⊢
        exact ih
      · simp only [eraseKey, List.filter_cons, hk] at ih ⊢
        rw [Bool.not_false, if_pos rfl, lookupKey_cons, lookupKey_cons]
        by_cases hf : hd.1 == f
        · simp [hf]
        · simp only [hf, if_false]
          exact ih

/-- Erasing a key removes it from lookups. -/
theorem lookupKey_erase_self (d : Document) (k : String) :
    lookupKey (eraseKey d k) k = none := by
  induction d with
  | nil => rfl
  | cons hd tl ih =>
      by_cases hk : hd.1 == k
      · simpa [eraseKey, List.filter_cons, hk] using ih
      · simp only [eraseKey, List.filter_cons, hk] at ih ⊢
        rw [Bool.not_false, if_pos rfl, lookupKey_cons]
        simp [hk]
        exact ih

/-- Inserting an entry under a different key anywhere does not change a lookup. -/
theorem lookupKey_middle_ne (p₁ p₂ : Payload) (k f : String) (jv : JValue) (h : f ≠ k) :
    lookupKey (p₁ ++ (k, jv) :: p₂) f = lookupKey (p₁ ++ p₂) f := by
  induction p₁ with
  | nil =>
      rw [List.nil_append, List.nil_append, lookupKey_cons]
      simp [Ne.symm h]
  | cons hd tl ih =>
      rw [List.cons_append, List.cons_append, lookupKey_cons, lookupKey_cons, ih]

/-! ## Except reduction and validator case-split lemmas -/

/-- Bind on a success. -/
theorem ok_bind {ε α β : Type} (a : α) (f : α → Except ε β) :
    (Except.ok a >>= f) = f a := rfl

/-- Bind on an error. -/
theorem error_bind {ε α β : Type} (e : ε) (f : α → Except ε β) :
    ((Except.error e : Except ε α) >>= f) = Except.error e := rfl

/-- Pure is ok. -/
theorem pure_eq_ok {ε α : Type} (a : α) : (pure a : Except ε α) = Except.ok a := rfl

/-- `reqStr` either fails on its own field or returns a string. -/
theorem reqStr_split (p : Payload) (k : String) :
    reqStr p k = .error (.validationError k) ∨ ∃ s, reqStr p k = .ok s := by
  cases hl : lookupKey p k with
  | none => exact .inl (by simp [reqStr, hl])
  | some v =>
      cases v with
      | str s => exact .inr ⟨s, by simp [reqStr, hl]⟩
      | null => exact .inl (by simp [reqStr, hl])
      | num q => exact .inl (by simp [reqStr, hl])
      | oid h => exact .inl (by simp [reqStr, hl])

/-- `reqEmail` either fails on its own field or returns a string. -/
theorem reqEmail_split (p : Payload) (k : String) :
    reqEmail p k = .error (.validationError k) ∨ ∃ s, reqEmail p k = .ok s := by
  cases hl : lookupKey p k with
  | none => exact .inl (by simp [reqEmail, hl])
  | some v =>
      cases v with
      | str s =>
          by_cases he : isEmailShape s
          · exact .inr ⟨s, by simp [reqEmail, hl, he]⟩
          · exact .inl (by simp [reqEmail, hl, he])
      | null => exact .inl (by simp [reqEmail, hl])
      | num q => exact .inl (by simp [reqEmail, hl])
      | oid h => exact .inl (by simp [reqEmail, hl])

/-- `optStr` either fails on its own field or returns an optional string. -/
theorem optStr_split (p : Payload) (k : String) :
    optStr p k = .error (.validationError k) ∨ ∃ s, optStr p k = .ok s := by
  cases hl : lookupKey p k with
  | none => exact .inr ⟨none, by simp [optStr, hl]⟩
  | some v =>
      cases v with
      | str s => exact .inr ⟨some s, by simp [optStr, hl]⟩
      | null => exact .inr ⟨none, by simp [optStr, hl]⟩
      | num q => exact .inl (by simp [optStr, hl])
      | oid h => exact .inl (by simp [optStr, hl])

/-- `optEmail` either fails on its own field or returns an optional string. -/
theorem optEmail_split (p : Payload) (k : String) :
    optEmail p k = .error (.validationError k) ∨ ∃ s, optEmail p k = .ok s := by
  cases hl : lookupKey p k with
  | none => exact .inr ⟨none, by simp [optEmail, hl]⟩
  | some v =>
      cases v with
      | str s =>
          by_cases he : isEmailShape s
          · exact .inr ⟨some s, by simp [optEmail, hl, he]⟩
          · exact .inl (by simp [optEmail, hl, he])
      | null => exact .inr ⟨none, by simp [optEmail, hl]⟩
      | num q => exact .inl (by simp [optEmail, hl])
      | oid h => exact .inl (by simp [optEmail, hl])

/-- `litField` either fails on its own field or returns a string. -/
theorem litField_split (p : Payload) (k : String) (allowed : List String) (dflt : String) :
    litField p k allowed dflt = .error (.validationError k)
    ∨ ∃ s, litField p k allowed dflt = .ok s := by
  cases hl : lookupKey p k with
  | none => exact .inr ⟨dflt, by simp [litField, hl]⟩
  | some v =>
      cases v with
      | str s =>
          by_cases he : s ∈ allowed
          · exact .inr ⟨s, by simp [litField, hl, he]⟩
          · exact .inl (by simp [litField, hl, he])
      | null => exact .inl (by simp [litField, hl])
      | num q => exact .inl (by simp [litField, hl])
      | oid h => exact .inl (by simp [litField, hl])

/-- `reqNumGe0` either fails on its own field or returns a number. -/
theorem reqNumGe0_split (p : Payload) (k : String) :
    reqNumGe0 p k = .error (.validationError k) ∨ ∃ q, reqNumGe0 p k = .ok q := by
  cases hl : lookupKey p k with
  | none => exact .inl (by simp [reqNumGe0, hl])
  | some v =>
      cases v with
      | str s => exact .inl (by simp [reqNumGe0, hl])
      | null => exact .inl (by simp [reqNumGe0, hl])
      | num q =>
          by_cases hq : q < 0
          · exact .inl (by simp [reqNumGe0, hl, hq])
          · exact .inr ⟨q, by simp [reqNumGe0, hl, hq]⟩
      | oid h => exact .inl (by simp [reqNumGe0, hl])

/-! ## Claims -/

/-- C1: for every Contact, Deal or Note creation request whose vendor_id is a
syntactically valid identifier that references no existing Vendor, the create
handler fails with the 404 "Vendor not found" response and the store is
returned untouched: the insert is never reached. -/
theorem claim_C1 (st : Store) (c : Contact) (d : Deal) (n : Note)
    (hc : isValidObjectId c.vendor_id = true)
    (hcf : find_one st.vendor c.vendor_id = none)
    (hd : isValidObjectId d.vendor_id = true)
    (hdf : find_one st.vendor d.vendor_id = none)
    (hn : isValidObjectId n.vendor_id = true)
    (hnf : find_one st.vendor n.vendor_id = none) :
    create_contact st c = (st, .error (.httpError 404 "Vendor not found"))
    ∧ create_deal st d = (st, .error (.httpError 404 "Vendor not found"))
    ∧ create_note st n = (st, .error (.httpError 404 "Vendor not found")) := by
  refine ⟨?_, ?_, ?_⟩ <;>
    simp [create_contact, create_deal, create_note, to_object_id, hc, hcf, hd, hdf, hn, hnf]

/-- Witness for C1 at the empty store and concrete child payloads with a valid
but unreferenced vendor id. -/
theorem claim_C1_witness :
    create_contact ⟨[], [], [], [], 0⟩ ⟨"507f1f77bcf86cd799439011", "Alice", none, none, none⟩
        = (⟨[], [], [], [], 0⟩, .error (.httpError 404 "Vendor not found"))
    ∧ create_deal ⟨[], [], [], [], 0⟩ ⟨"507f1f77bcf86cd799439011", "Big deal", 10, "lead", none⟩
        = (⟨[], [], [], [], 0⟩, .error (.httpError 404 "Vendor not found"))
    ∧ create_note ⟨[], [], [], [], 0⟩ ⟨"507f1f77bcf86cd799439011", "note text", none⟩
        = (⟨[], [], [], [], 0⟩, .error (.httpError 404 "Vendor not found")) :=
  claim_C1 ⟨[], [], [], [], 0⟩
    ⟨"507f1f77bcf86cd799439011", "Alice", none, none, none⟩
    ⟨"507f1f77bcf86cd799439011", "Big deal", 10, "lead", none⟩
    ⟨"507f1f77bcf86cd799439011", "note text", none⟩
    (by decide) rfl (by decide) rfl (by decide) rfl

/-- C2: for every Contact, Deal or Note creation request whose vendor_id is not
a syntactically valid store identifier, the handler fails with the 400
"Invalid id format" response — for every store state, so no existence lookup
can have influenced the outcome — and that failure differs from the 404
not-found failure. -/
theorem claim_C2 (st : Store) (c : Contact) (d : Deal) (n : Note)
    (hc : isValidObjectId c.vendor_id = false)
    (hd : isValidObjectId d.vendor_id = false)
    (hn : isValidObjectId n.vendor_id = false) :
    create_contact st c = (st, .error (.httpError 400 "Invalid id format"))
    ∧ create_deal st d = (st, .error (.httpError 400 "Invalid id format"))
    ∧ create_note st n = (st, .error (.httpError 400 "Invalid id format"))
    ∧ ApiError.httpError 400 "Invalid id format" ≠ ApiError.httpError 404 "Vendor not found" := by
  refine ⟨?_, ?_, ?_, by decide⟩ <;>
    simp [create_contact, create_deal, create_note, to_object_id, hc, hd, hn]

/-- Witness for C2 at a store that does contain a vendor, with a malformed
vendor id: the 400 response is produced anyway. -/
theorem claim_C2_witness :
    create_contact ⟨[[("_id", .oid "507f1f77bcf86cd799439011")]], [], [], [], 1⟩
        ⟨"not-an-id", "Alice", none, none, none⟩
        = (⟨[[("_id", .oid "507f1f77bcf86cd799439011")]], [], [], [], 1⟩,
            .error (.httpError 400 "Invalid id format"))
    ∧ create_deal ⟨[[("_id", .oid "507f1f77bcf86cd799439011")]], [], [], [], 1⟩
        ⟨"not-an-id", "Big deal", 10, "lead", none⟩
        = (⟨[[("_id", .oid "507f1f77bcf86cd799439011")]], [], [], [], 1⟩,
            .error (.httpError 400 "Invalid id format"))
    ∧ create_note ⟨[[("_id", .oid "507f1f77bcf86cd799439011")]], [], [], [], 1⟩
        ⟨"not-an-id", "note text", none⟩
        = (⟨[[("_id", .oid "507f1f77bcf86cd799439011")]], [], [], [], 1⟩,
            .error (.httpError 400 "Invalid id format"))
    ∧ ApiError.httpError 400 "Invalid id format" ≠ ApiError.httpError 404 "Vendor not found" :=
  claim_C2 ⟨[[("_id", .oid "507f1f77bcf86cd799439011")]], [], [], [], 1⟩
    ⟨"not-an-id", "Alice", none, none, none⟩
    ⟨"not-an-id", "Big deal", 10, "lead", none⟩
    ⟨"not-an-id", "note text", none⟩
    (by decide) (by decide) (by decide)

/-- C6: GET /schema returns the same mapping for every store state, and its key
list is exactly the four entity names. -/
theorem claim_C6 :
    ∀ st st' : Store,
      get_schema st = get_schema st'
      ∧ (get_schema st).map Prod.fst = ["vendor", "contact", "deal", "note"] :=
  fun _ _ => ⟨rfl, rfl⟩

/-- C9: supplying a filter query parameter as the empty string is treated
identically to omitting it — the handlers build the same (empty) filter
condition and return the unfiltered listing. -/
theorem claim_C9 :
    ∀ (st : Store) (lim : Nat),
      list_vendors st (some "") lim = list_vendors st none lim
      ∧ list_contacts st (some "") lim = list_contacts st none lim
      ∧ list_deals st (some "") none lim = list_deals st none none lim
      ∧ list_deals st none (some "") lim = list_deals st none none lim
      ∧ vendorFilt (some "") = [] ∧ contactFilt (some "") = []
      ∧ dealFilt (some "") (some "") = [] :=
  fun _ _ => ⟨rfl, rfl, rfl, rfl, rfl, rfl, rfl⟩

/-- C3: Deal validation requires `value ≥ 0`: every payload carrying a negative
numeric `value` fails with a validation error, and the concrete otherwise-valid
payload with `value = 0` validates successfully (picking up the default stage). -/
theorem claim_C3 (p : Payload) (q : Rat)
    (hv : lookupKey p "value" = some (.num q)) (hq : q < 0) :
    (∃ f, validateDeal p = .error (.validationError f))
    ∧ validateDeal
        [("vendor_id", .str "507f1f77bcf86cd799439011"), ("title", .str "Website revamp"),
          ("value", .num 0)]
        = .ok ⟨"507f1f77bcf86cd799439011", "Website revamp", 0, "lead", none⟩ := by
  constructor
  · have hval : reqNumGe0 p "value" = .error (.validationError "value") := by
      simp [reqNumGe0, hv, hq]
    rcases reqStr_split p "vendor_id" with h1 | ⟨s1, h1⟩
    · exact ⟨"vendor_id", by simp [validateDeal, h1, error_bind]⟩
    rcases reqStr_split p "title" with h2 | ⟨s2, h2⟩
    · exact ⟨"title", by simp [validateDeal, h1, h2, ok_bind, error_bind]⟩
    exact ⟨"value", by simp [validateDeal, h1, h2, hval, ok_bind, error_bind]⟩
  · rfl

/-- Witness for C3 at the concrete payload with `value = -1`. -/
theorem claim_C3_witness :
    (∃ f,
        validateDeal
          [("vendor_id", .str "507f1f77bcf86cd799439011"), ("title", .str "Website revamp"),
            ("value", .num (-1))]
          = .error (.validationError f))
    ∧ validateDeal
        [("vendor_id", .str "507f1f77bcf86cd799439011"), ("title", .str "Website revamp"),
          ("value", .num 0)]
        = .ok ⟨"507f1f77bcf86cd799439011", "Website revamp", 0, "lead", none⟩ :=
  claim_C3
    [("vendor_id", .str "507f1f77bcf86cd799439011"), ("title", .str "Website revamp"),
      ("value", .num (-1))]
    (-1) rfl (by norm_num)

/-- C5: serialization of a store document (which carries `_id` and no prior
`id` field) renames `_id` to the public string field `id` and leaves every
other field's value readable unchanged. -/
theorem claim_C5 (d : Document) (v : JValue)
    (hid : lookupKey d "_id" = some v) (hpub : lookupKey d "id" = none) :
    ∃ d', serialize d = some d'
      ∧ lookupKey d' "id" = some (JValue.str (strOfValue v))
      ∧ lookupKey d' "_id" = none
      ∧ ∀ k, k ≠ "_id" → k ≠ "id" → lookupKey d' k = lookupKey d k := by
  have hne : lookupKey (eraseKey d "_id") "id" = none := by
    rw [lookupKey_erase_ne d "id" "_id" (by decide)]
    exact hpub
  have hempty : d.isEmpty = false := by
    cases d with
    | nil => simp [lookupKey] at hid
    | cons hd tl => rfl
  refine ⟨eraseKey d "_id" ++ [("id", JValue.str (strOfValue v))], ?_, ?_, ?_, ?_⟩
  · simp [serialize, hempty, hid, setKey, hne]
  · exact lookupKey_append_self _ _ _ hne
  · rw [lookupKey_append_ne _ _ _ _ (by decide)]
    exact lookupKey_erase_self _ _
  · intro k hk1 hk2
    rw [lookupKey_append_ne _ _ _ _ hk2, lookupKey_erase_ne _ _ _ hk1]

/-- Witness for C5 at a concrete two-field store document. -/
theorem claim_C5_witness :
    ∃ d',
      serialize [("_id", JValue.oid "507f1f77bcf86cd799439011"), ("name", JValue.str "Alice")]
        = some d'
      ∧ lookupKey d' "id" = some (JValue.str "507f1f77bcf86cd799439011")
      ∧ lookupKey d' "_id" = none
      ∧ ∀ k, k ≠ "_id" → k ≠ "id" →
          lookupKey d' k
            = lookupKey
                [("_id", JValue.oid "507f1f77bcf86cd799439011"), ("name", JValue.str "Alice")]
                k :=
  claim_C5
    [("_id", JValue.oid "507f1f77bcf86cd799439011"), ("name", JValue.str "Alice")]
    (JValue.oid "507f1f77bcf86cd799439011") rfl rfl

/-- A successful Vendor validation got its `status` from the literal-set field
reader (so in particular the default applies when the field is absent). -/
theorem validateVendor_ok_status (p : Payload) (v : Vendor) (h : validateVendor p = .ok v) :
    litField p "status" vendorStatuses "active" = .ok v.status := by
  rcases reqStr_split p "name" with h1 | ⟨s1, h1⟩
  · simp [validateVendor, h1, error_bind] at h
  rcases reqEmail_split p "email" with h2 | ⟨s2, h2⟩
  · simp [validateVendor, h1, h2, ok_bind, error_bind] at h
  rcases reqStr_split p "business_name" with h3 | ⟨s3, h3⟩
  · simp [validateVendor, h1, h2, h3, ok_bind, error_bind] at h
  rcases optStr_split p "phone" with h4 | ⟨s4, h4⟩
  · simp [validateVendor, h1, h2, h3, h4, ok_bind, error_bind] at h
  rcases optStr_split p "category" with h5 | ⟨s5, h5⟩
  · simp [validateVendor, h1, h2, h3, h4, h5, ok_bind, error_bind] at h
  rcases optStr_split p "website" with h6 | ⟨s6, h6⟩
  · simp [validateVendor, h1, h2, h3, h4, h5, h6, ok_bind, error_bind] at h
  rcases litField_split p "status" vendorStatuses "active" with h7 | ⟨s7, h7⟩
  · simp [validateVendor, h1, h2, h3, h4, h5, h6, h7, ok_bind, error_bind] at h
  · simp only [validateVendor, h1, h2, h3, h4, h5, h6, h7, ok_bind, pure_eq_ok,
      Except.ok.injEq] at h
    rw [h7, ← h]

/-- Every Vendor validation failure is a per-field validation error. -/
theorem validateVendor_error_shape (p : Payload) (e : ApiError)
    (h : validateVendor p = .error e) : ∃ f, e = .validationError f := by
  rcases reqStr_split p "name" with h1 | ⟨s1, h1⟩
  · simp only [validateVendor, h1, error_bind, Except.error.injEq] at h
    exact ⟨"name", h.symm⟩
  rcases reqEmail_split p "email" with h2 | ⟨s2, h2⟩
  · simp only [validateVendor, h1, h2, ok_bind, error_bind, Except.error.injEq] at h
    exact ⟨"email", h.symm⟩
  rcases reqStr_split p "business_name" with h3 | ⟨s3, h3⟩
  · simp only [validateVendor, h1, h2, h3, ok_bind, error_bind, Except.error.injEq] at h
    exact ⟨"business_name", h.symm⟩
  rcases optStr_split p "phone" with h4 | ⟨s4, h4⟩
  · simp only [validateVendor, h1, h2, h3, h4, ok_bind, error_bind, Except.error.injEq] at h
    exact ⟨"phone", h.symm⟩
  rcases optStr_split p "category" with h5 | ⟨s5, h5⟩
  · simp only [validateVendor, h1, h2, h3, h4, h5, ok_bind, error_bind, Except.error.injEq] at h
    exact ⟨"category", h.symm⟩
  rcases optStr_split p "website" with h6 | ⟨s6, h6⟩
  · simp only [validateVendor, h1, h2, h3, h4, h5, h6, ok_bind, error_bind,
      Except.error.injEq] at h
    exact ⟨"website", h.symm⟩
  rcases litField_split p "status" vendorStatuses "active" with h7 | ⟨s7, h7⟩
  · simp only [validateVendor, h1, h2, h3, h4, h5, h6, h7, ok_bind, error_bind,
      Except.error.injEq] at h
    exact ⟨"status", h.symm⟩
  · simp [validateVendor, h1, h2, h3, h4, h5, h6, h7, ok_bind, pure_eq_ok] at h

/-- A successful Deal validation got its `stage` from the literal-set field
reader (so in particular the default applies when the field is absent). -/
theorem validateDeal_ok_stage (p : Payload) (d : Deal) (h : validateDeal p = .ok d) :
    litField p "stage" dealStages "lead" = .ok d.stage := by
  rcases reqStr_split p "vendor_id" with h1 | ⟨s1, h1⟩
  · simp [validateDeal, h1, error_bind] at h
  rcases reqStr_split p "title" with h2 | ⟨s2, h2⟩
  · simp [validateDeal, h1, h2, ok_bind, error_bind] at h
  rcases reqNumGe0_split p "value" with h3 | ⟨q3, h3⟩
  · simp [validateDeal, h1, h2, h3, ok_bind, error_bind] at h
  rcases litField_split p "stage" dealStages "lead" with h4 | ⟨s4, h4⟩
  · simp [validateDeal, h1, h2, h3, h4, ok_bind, error_bind] at h
  rcases optStr_split p "notes" with h5 | ⟨s5, h5⟩
  · simp [validateDeal, h1, h2, h3, h4, h5, ok_bind, error_bind] at h
  · simp only [validateDeal, h1, h2, h3, h4, h5, ok_bind, pure_eq_ok, Except.ok.injEq] at h
    rw [h4, ← h]

/-- Every Deal validation failure is a per-field validation error. -/
theorem validateDeal_error_shape (p : Payload) (e : ApiError)
    (h : validateDeal p = .error e) : ∃ f, e = .validationError f := by
  rcases reqStr_split p "vendor_id" with h1 | ⟨s1, h1⟩
  · simp only [validateDeal, h1, error_bind, Except.error.injEq] at h
    exact ⟨"vendor_id", h.symm⟩
  rcases reqStr_split p "title" with h2 | ⟨s2, h2⟩
  · simp only [validateDeal, h1, h2, ok_bind, error_bind, Except.error.injEq] at h
    exact ⟨"title", h.symm⟩
  rcases reqNumGe0_split p "value" with h3 | ⟨q3, h3⟩
  · simp only [validateDeal, h1, h2, h3, ok_bind, error_bind, Except.error.injEq] at h
    exact ⟨"value", h.symm⟩
  rcases litField_split p "stage" dealStages "lead" with h4 | ⟨s4, h4⟩
  · simp only [validateDeal, h1, h2, h3, h4, ok_bind, error_bind, Except.error.injEq] at h
    exact ⟨"stage", h.symm⟩
  rcases optStr_split p "notes" with h5 | ⟨s5, h5⟩
  · simp only [validateDeal, h1, h2, h3, h4, h5, ok_bind, error_bind, Except.error.injEq] at h
    exact ⟨"notes", h.symm⟩
  · simp [validateDeal, h1, h2, h3, h4, h5, ok_bind, pure_eq_ok] at h

/-- C7: omitted `Vendor.status` defaults to "active" and omitted `Deal.stage`
defaults to "lead" in every successful validation; a supplied value outside the
declared literal set makes validation fail. -/
theorem claim_C7 (p₁ p₂ p₃ p₄ : Payload) (v : Vendor) (dl : Deal) (jv jv' : JValue)
    (h₁ : lookupKey p₁ "status" = none) (h₁v : validateVendor p₁ = .ok v)
    (h₂ : lookupKey p₂ "stage" = none) (h₂d : validateDeal p₂ = .ok dl)
    (h₃ : lookupKey p₃ "status" = some jv) (h₃n : jv ∉ vendorStatuses.map JValue.str)
    (h₄ : lookupKey p₄ "stage" = some jv') (h₄n : jv' ∉ dealStages.map JValue.str) :
    v.status = "active" ∧ dl.stage = "lead"
    ∧ (∃ f, validateVendor p₃ = .error (.validationError f))
    ∧ (∃ f, validateDeal p₄ = .error (.validationError f)) := by
  refine ⟨?_, ?_, ?_, ?_⟩
  · have hs := validateVendor_ok_status p₁ v h₁v
    simp only [litField, h₁, Except.ok.injEq] at hs
    exact hs.symm
  · have hs := validateDeal_ok_stage p₂ dl h₂d
    simp only [litField, h₂, Except.ok.injEq] at hs
    exact hs.symm
  · cases hval : validateVendor p₃ with
    | error e =>
        obtain ⟨f, hf⟩ := validateVendor_error_shape p₃ e hval
        exact ⟨f, by rw [hf]⟩
    | ok v₃ =>
        exfalso
        have hst := validateVendor_ok_status p₃ v₃ hval
        cases jv with
        | str s =>
            have hmem : s ∉ vendorStatuses := fun hs => h₃n (List.mem_map_of_mem _ hs)
            simp [litField, h₃, hmem] at hst
        | null => simp [litField, h₃] at hst
        | num q => simp [litField, h₃] at hst
        | oid hx => simp [litField, h₃] at hst
  · cases hval : validateDeal p₄ with
    | error e =>
        obtain ⟨f, hf⟩ := validateDeal_error_shape p₄ e hval
        exact ⟨f, by rw [hf]⟩
    | ok d₄ =>
        exfalso
        have hst := validateDeal_ok_stage p₄ d₄ hval
        cases jv' with
        | str s =>
            have hmem : s ∉ dealStages := fun hs => h₄n (List.mem_map_of_mem _ hs)
            simp [litField, h₄, hmem] at hst
        | null => simp [litField, h₄] at hst
        | num q => simp [litField, h₄] at hst
        | oid hx => simp [litField, h₄] at hst

/-- Witness for C7: concrete payloads omitting `status`/`stage`, and concrete
payloads carrying out-of-set values "bogus" and "archived". -/
theorem claim_C7_witness :
    (Vendor.mk "Ann" "ann@acme.com" "Acme Corp" none none none "active").status = "active"
    ∧ (Deal.mk "507f1f77bcf86cd799439011" "Website revamp" 5 "lead" none).stage = "lead"
    ∧ (∃ f,
        validateVendor [("status", JValue.str "bogus")] = .error (.validationError f))
    ∧ (∃ f,
        validateDeal [("stage", JValue.str "archived")] = .error (.validationError f)) :=
  claim_C7
    [("name", .str "Ann"), ("email", .str "ann@acme.com"), ("business_name", .str "Acme Corp")]
    [("vendor_id", .str "507f1f77bcf86cd799439011"), ("title", .str "Website revamp"),
      ("value", .num 5)]
    [("status", .str "bogus")] [("stage", .str "archived")]
    (Vendor.mk "Ann" "ann@acme.com" "Acme Corp" none none none "active")
    (Deal.mk "507f1f77bcf86cd799439011" "Website revamp" 5 "lead" none)
    (.str "bogus") (.str "archived")
    rfl rfl rfl rfl rfl (by decide) rfl (by decide)

/-- A key outside a field list differs from every field in it. -/
theorem ne_key {k f : String} {l : List String} (h : k ∉ l) (hf : f ∈ l) : f ≠ k :=
  fun he => h (he ▸ hf)

/-- A nonempty string is truthy. -/
theorem truthy_some_of_ne {s : String} (h : s ≠ "") : truthy (some s) = true := by
  have hie : s.isEmpty = false := by
    by_cases hqe : s.isEmpty = true
    · exact absurd ((String.isEmpty_iff s).mp hqe) h
    · simpa using hqe
  simp [truthy, hie]

/-- C8: per entity, a field undeclared in that entity's schema spliced anywhere
into a payload never changes that entity's validation outcome (in particular it
causes no validation error) — the four conjuncts carry independent payloads,
keys and values, so a key declared in some other schema (e.g. "vendor_id" in a
Vendor payload) is covered — and the document built from a validated entity for
persistence carries exactly the declared fields, so the extra key is absent
from it. -/
theorem claim_C8 (pv₁ pv₂ pc₁ pc₂ pd₁ pd₂ pn₁ pn₂ : Payload)
    (kv kc kd kn : String) (jv jc jd jn : JValue)
    (hv : kv ∉ vendorFields) (hc : kc ∉ contactFields)
    (hd : kd ∉ dealFields) (hn : kn ∉ noteFields) :
    validateVendor (pv₁ ++ (kv, jv) :: pv₂) = validateVendor (pv₁ ++ pv₂)
    ∧ validateContact (pc₁ ++ (kc, jc) :: pc₂) = validateContact (pc₁ ++ pc₂)
    ∧ validateDeal (pd₁ ++ (kd, jd) :: pd₂) = validateDeal (pd₁ ++ pd₂)
    ∧ validateNote (pn₁ ++ (kn, jn) :: pn₂) = validateNote (pn₁ ++ pn₂)
    ∧ (∀ v : Vendor, (vendorToDoc v).map Prod.fst = vendorFields)
    ∧ (∀ c : Contact, (contactToDoc c).map Prod.fst = contactFields)
    ∧ (∀ d : Deal, (dealToDoc d).map Prod.fst = dealFields)
    ∧ (∀ n : Note, (noteToDoc n).map Prod.fst = noteFields) := by
  have ev : ∀ f : String, f ≠ kv →
      lookupKey (pv₁ ++ (kv, jv) :: pv₂) f = lookupKey (pv₁ ++ pv₂) f :=
    fun f hf => lookupKey_middle_ne pv₁ pv₂ kv f jv hf
  have ec : ∀ f : String, f ≠ kc →
      lookupKey (pc₁ ++ (kc, jc) :: pc₂) f = lookupKey (pc₁ ++ pc₂) f :=
    fun f hf => lookupKey_middle_ne pc₁ pc₂ kc f jc hf
  have ed : ∀ f : String, f ≠ kd →
      lookupKey (pd₁ ++ (kd, jd) :: pd₂) f = lookupKey (pd₁ ++ pd₂) f :=
    fun f hf => lookupKey_middle_ne pd₁ pd₂ kd f jd hf
  have en : ∀ f : String, f ≠ kn →
      lookupKey (pn₁ ++ (kn, jn) :: pn₂) f = lookupKey (pn₁ ++ pn₂) f :=
    fun f hf => lookupKey_middle_ne pn₁ pn₂ kn f jn hf
  refine ⟨?_, ?_, ?_, ?_, fun v => rfl, fun c => rfl, fun d => rfl, fun n => rfl⟩
  · simp only [validateVendor, reqStr, reqEmail, optStr, litField,
      ev "name" (ne_key hv (by simp [vendorFields])),
      ev "email" (ne_key hv (by simp [vendorFields])),
      ev "business_name" (ne_key hv (by simp [vendorFields])),
      ev "phone" (ne_key hv (by simp [vendorFields])),
      ev "category" (ne_key hv (by simp [vendorFields])),
      ev "website" (ne_key hv (by simp [vendorFields])),
      ev "status" (ne_key hv (by simp [vendorFields]))]
  · simp only [validateContact, reqStr, optEmail, optStr,
      ec "vendor_id" (ne_key hc (by simp [contactFields])),
      ec "name" (ne_key hc (by simp [contactFields])),
      ec "email" (ne_key hc (by simp [contactFields])),
      ec "phone" (ne_key hc (by simp [contactFields])),
      ec "role" (ne_key hc (by simp [contactFields]))]
  · simp only [validateDeal, reqStr, reqNumGe0, litField, optStr,
      ed "vendor_id" (ne_key hd (by simp [dealFields])),
      ed "title" (ne_key hd (by simp [dealFields])),
      ed "value" (ne_key hd (by simp [dealFields])),
      ed "stage" (ne_key hd (by simp [dealFields])),
      ed "notes" (ne_key hd (by simp [dealFields]))]
  · simp only [validateNote, reqStr, optStr,
      en "vendor_id" (ne_key hn (by simp [noteFields])),
      en "content" (ne_key hn (by simp [noteFields])),
      en "author" (ne_key hn (by simp [noteFields]))]

/-- Witness for C8: extra keys that are declared in some other entity's schema
— "vendor_id" inside a Vendor payload, "status" inside a Contact payload,
"business_name" inside a Deal payload, "stage" inside a Note payload — plus
the four persisted-document key lists. -/
theorem claim_C8_witness :
    validateVendor ([("name", JValue.str "Ann")]
        ++ ("vendor_id", JValue.str "507f1f77bcf86cd799439011")
          :: [("email", JValue.str "ann@acme.com")])
      = validateVendor ([("name", JValue.str "Ann")] ++ [("email", JValue.str "ann@acme.com")])
    ∧ validateContact ([("vendor_id", JValue.str "507f1f77bcf86cd799439011")]
        ++ ("status", JValue.str "pending") :: [("name", JValue.str "Bob")])
      = validateContact ([("vendor_id", JValue.str "507f1f77bcf86cd799439011")]
          ++ [("name", JValue.str "Bob")])
    ∧ validateDeal ([("vendor_id", JValue.str "507f1f77bcf86cd799439011")]
        ++ ("business_name", JValue.str "Acme Corp")
          :: [("title", JValue.str "Website revamp"), ("value", JValue.num 5)])
      = validateDeal ([("vendor_id", JValue.str "507f1f77bcf86cd799439011")]
          ++ [("title", JValue.str "Website revamp"), ("value", JValue.num 5)])
    ∧ validateNote ([("vendor_id", JValue.str "507f1f77bcf86cd799439011")]
        ++ ("stage", JValue.str "won") :: [("content", JValue.str "called them")])
      = validateNote ([("vendor_id", JValue.str "507f1f77bcf86cd799439011")]
          ++ [("content", JValue.str "called them")])
    ∧ (∀ v : Vendor, (vendorToDoc v).map Prod.fst = vendorFields)
    ∧ (∀ c : Contact, (contactToDoc c).map Prod.fst = contactFields)
    ∧ (∀ d : Deal, (dealToDoc d).map Prod.fst = dealFields)
    ∧ (∀ n : Note, (noteToDoc n).map Prod.fst = noteFields) :=
  claim_C8
    [("name", JValue.str "Ann")] [("email", JValue.str "ann@acme.com")]
    [("vendor_id", JValue.str "507f1f77bcf86cd799439011")] [("name", JValue.str "Bob")]
    [("vendor_id", JValue.str "507f1f77bcf86cd799439011")]
    [("title", JValue.str "Website revamp"), ("value", JValue.num 5)]
    [("vendor_id", JValue.str "507f1f77bcf86cd799439011")]
    [("content", JValue.str "called them")]
    "vendor_id" "status" "business_name" "stage"
    (JValue.str "507f1f77bcf86cd799439011") (JValue.str "pending")
    (JValue.str "Acme Corp") (JValue.str "won")
    (by decide) (by decide) (by decide) (by decide)

/-- C4: for a nonempty query q (and a limit at least the collection size, so
truncation plays no role), a vendor document is selected by the list handler
exactly when q occurs case-insensitively in its business_name; "Acme" matches
"Acme Corp" and "acme inc" but not "Other Co". -/
theorem claim_C4 (st : Store) (q : String) (lim : Nat) (d : Document) (b : String)
    (hq : q ≠ "") (hlim : st.vendor.length ≤ lim)
    (hb : lookupKey d "business_name" = some (.str b)) :
    (d ∈ list_vendors_docs st (some q) lim ↔ d ∈ st.vendor ∧ containsCI q b = true)
    ∧ containsCI "Acme" "Acme Corp" = true
    ∧ containsCI "Acme" "acme inc" = true
    ∧ containsCI "Acme" "Other Co" = false := by
  refine ⟨?_, by decide, by decide, by decide⟩
  have hfl : vendorFilt (some q) = [Cond.regexI "business_name" q] := by
    simp [vendorFilt, truthy_some_of_ne hq]
  rw [list_vendors_docs, get_documents, hfl,
    List.take_of_length_le (le_trans (List.length_filter_le _ _) hlim), List.mem_filter]
  constructor
  · rintro ⟨hm, hmf⟩
    refine ⟨hm, ?_⟩
    simpa [matchesFilt, matchesCond, hb] using hmf
  · rintro ⟨hm, hcb⟩
    exact ⟨hm, by simp [matchesFilt, matchesCond, hb, hcb]⟩

/-- Witness for C4: a three-vendor store searched with q = "Acme"; the
"Acme Corp" document is selected. -/
theorem claim_C4_witness :
    (([("_id", JValue.oid "aaaaaaaaaaaaaaaaaaaaaaaa"), ("business_name", JValue.str "Acme Corp")]
        : Document)
      ∈ list_vendors_docs
          ⟨[[("_id", JValue.oid "aaaaaaaaaaaaaaaaaaaaaaaa"),
              ("business_name", JValue.str "Acme Corp")],
            [("_id", JValue.oid "bbbbbbbbbbbbbbbbbbbbbbbb"),
              ("business_name", JValue.str "acme inc")],
            [("_id", JValue.oid "cccccccccccccccccccccccc"),
              ("business_name", JValue.str "Other Co")]], [], [], [], 3⟩
          (some "Acme") 50
      ↔ ([("_id", JValue.oid "aaaaaaaaaaaaaaaaaaaaaaaa"),
            ("business_name", JValue.str "Acme Corp")] : Document)
          ∈ ([[("_id", JValue.oid "aaaaaaaaaaaaaaaaaaaaaaaa"),
                ("business_name", JValue.str "Acme Corp")],
              [("_id", JValue.oid "bbbbbbbbbbbbbbbbbbbbbbbb"),
                ("business_name", JValue.str "acme inc")],
              [("_id", JValue.oid "cccccccccccccccccccccccc"),
                ("business_name", JValue.str "Other Co")]] : List Document)
          ∧ containsCI "Acme" "Acme Corp" = true)
    ∧ containsCI "Acme" "Acme Corp" = true
    ∧ containsCI "Acme" "acme inc" = true
    ∧ containsCI "Acme" "Other Co" = false :=
  claim_C4
    ⟨[[("_id", JValue.oid "aaaaaaaaaaaaaaaaaaaaaaaa"),
        ("business_name", JValue.str "Acme Corp")],
      [("_id", JValue.oid "bbbbbbbbbbbbbbbbbbbbbbbb"),
        ("business_name", JValue.str "acme inc")],
      [("_id", JValue.oid "cccccccccccccccccccccccc"),
        ("business_name", JValue.str "Other Co")]], [], [], [], 3⟩
    "Acme" 50
    [("_id", JValue.oid "aaaaaaaaaaaaaaaaaaaaaaaa"), ("business_name", JValue.str "Acme Corp")]
    "Acme Corp" (by decide) (by decide) rfl

/-- A document carrying an `_id` serializes successfully. -/
theorem serialize_isSome (d : Document) (h : (lookupKey d "_id").isSome) :
    (serialize d).isSome := by
  cases d with
  | nil => simp [serialize]
  | cons hd tl =>
      obtain ⟨v, hv⟩ := Option.isSome_iff_exists.mp h
      simp [serialize, hv]

/-- Serializing a whole listing succeeds when every document carries an `_id`. -/
theorem mapM_serialize_some (l : List Document) (h : ∀ d ∈ l, (serialize d).isSome) :
    ∃ ys, l.mapM serialize = some ys := by
  induction l with
  | nil => exact ⟨[], rfl⟩
  | cons hd tl ih =>
      obtain ⟨y, hy⟩ := Option.isSome_iff_exists.mp (h hd (List.mem_cons_self hd tl))
      obtain ⟨ys, hys⟩ := ih (fun d hd' => h d (List.mem_cons_of_mem _ hd'))
      exact ⟨y :: ys, by rw [List.mapM_cons, hy, hys]; rfl⟩

/-- C10: GET /deals performs no enum validation of `stage`: any nonempty string
goes into the filter as an exact-match condition, the handler answers with a
success listing (never a validation error — its type admits none), and when no
stored deal carries that stage the listing is empty. -/
theorem claim_C10 (st : Store) (s : String) (lim : Nat)
    (hs : s ≠ "")
    (hid : ∀ d ∈ st.deal, (lookupKey d "_id").isSome) :
    dealFilt none (some s) = [Cond.eq "stage" (JValue.str s)]
    ∧ (∃ docs, list_deals st none (some s) lim = some docs)
    ∧ ((∀ d ∈ st.deal, lookupKey d "stage" ≠ some (JValue.str s)) →
        list_deals st none (some s) lim = some []) := by
  have hfl : dealFilt none (some s) = [Cond.eq "stage" (JValue.str s)] := by
    have h1 : truthy none = false := rfl
    simp [dealFilt, h1, truthy_some_of_ne hs]
  refine ⟨hfl, ?_, ?_⟩
  · apply mapM_serialize_some
    intro d hd
    apply serialize_isSome
    rw [list_deals_docs, get_documents] at hd
    exact hid d (List.mem_filter.mp (List.mem_of_mem_take hd)).1
  · intro hnone
    have hfil : List.filter (fun d => matchesFilt d (dealFilt none (some s))) st.deal = [] := by
      rw [hfl]
      refine List.filter_eq_nil_iff.mpr ?_
      intro d hd
      simp [matchesFilt, matchesCond, hnone d hd]
    rw [list_deals, list_deals_docs, get_documents, hfil, List.take_nil]
    rfl

/-- Witness for C10: a one-deal store queried with the out-of-enum stage
"bogus". -/
theorem claim_C10_witness :
    dealFilt none (some "bogus") = [Cond.eq "stage" (JValue.str "bogus")]
    ∧ (∃ docs,
        list_deals
          ⟨[], [], [[("_id", JValue.oid "507f1f77bcf86cd799439011"),
            ("stage", JValue.str "lead")]], [], 1⟩
          none (some "bogus") 100 = some docs)
    ∧ ((∀ d ∈ ([[("_id", JValue.oid "507f1f77bcf86cd799439011"),
          ("stage", JValue.str "lead")]] : List Document),
          lookupKey d "stage" ≠ some (JValue.str "bogus")) →
        list_deals
          ⟨[], [], [[("_id", JValue.oid "507f1f77bcf86cd799439011"),
            ("stage", JValue.str "lead")]], [], 1⟩
          none (some "bogus") 100 = some []) :=
  claim_C10
    ⟨[], [], [[("_id", JValue.oid "507f1f77bcf86cd799439011"),
      ("stage", JValue.str "lead")]], [], 1⟩
    "bogus" 100 (by decide) (by decide)

end VendorCRM
